import Mathlib

/-!
Shallow embedding of the µOS++ `os::rtos::mutex` component (os-mutex.cpp)
together with the minimal thread state it manipulates.  Machine integers of
the source (`thread::priority_t` = uint8_t, the recursion counter, the
per-thread acquired-mutex counter) are modelled as `Nat`; the source only
assigns and compares these values, and increments them under bounds that
exclude wrap-around, so no modular reduction is needed.  `result_t` values
are the symbolic POSIX codes the source returns.
-/

/-- Error codes returned by the mutex operations (`result::ok` and the POSIX
`E*` codes used by os-mutex.cpp). -/
inductive result_t where
  | ok
  | EPERM
  | EINVAL
  | EAGAIN
  | EDEADLK
  | EWOULDBLOCK
  | EINTR
  | ETIMEDOUT
  | ENOTRECOVERABLE
  | ENOTSUP
  deriving DecidableEq, Repr

/-- The per-thread state the mutex reads and writes: current priority
(`prio_`), the `interrupted_` flag, and the `acquired_mutexes_` counter. -/
structure thread where
  prio_ : Nat
  interrupted_ : Bool
  acquired_mutexes_ : Nat
  deriving DecidableEq, Repr

/-- Value of `thread::priority::none` (0 in os-thread.h). -/
def priority_none : Nat := 0

/-- Pointwise update of the thread map at one thread id. -/
def upd (m : Nat → thread) (i : Nat) (v : thread) : Nat → thread :=
  fun j => if j = i then v else m j

theorem upd_self (m : Nat → thread) (i : Nat) (v : thread) : upd m i v i = v := by
  simp [upd]

theorem upd_other (m : Nat → thread) (i j : Nat) (v : thread) (h : j ≠ i) :
    upd m i v j = m j := by
  simp [upd, h]

namespace mutex

/-- Enumeration `mutex::type` (os-mutex.h): normal, errorcheck, recursive, `_default`. -/
inductive type where
  | normal
  | errorcheck
  | recursive
  | _default
  deriving DecidableEq, Repr

/-- Enumeration `mutex::protocol`: none, inherit, protect. -/
inductive protocol where
  | none
  | inherit
  | protect
  deriving DecidableEq, Repr

/-- Enumeration `mutex::robustness`: stalled, robust. -/
inductive robustness where
  | stalled
  | robust
  deriving DecidableEq, Repr

/-- Attributes `mutex::attributes` (the fields the constructor reads). -/
structure attributes where
  mx_type : type
  mx_protocol : protocol
  mx_robustness : robustness
  mx_max_count : Nat
  mx_priority_ceiling : Nat
  deriving DecidableEq, Repr

/-- The mutable state of one mutex object (members of class `mutex`),
bundled with the map of the thread objects its owner/waiter pointers refer
to.  `owner_` holds the id of the owning thread or `none` (`nullptr`); `list_`
is the intrusive waiting list as the list of waiting thread ids in link
order. -/
structure state where
  threads : Nat → thread
  owner_ : Option Nat
  count_ : Nat
  list_ : List Nat
  owner_prio_ : Nat
  boosted_prio_ : Nat
  consistent_ : Bool
  recoverable_ : Bool
  type_ : type
  protocol_ : protocol
  robustness_ : robustness
  max_count_ : Nat
  prio_ceiling_ : Nat

/-- Modelled from the spec: `waiting_threads_list::resume_all` lives in the
scheduler-lists code, which is not under src/.  Per the spec, `reset`
"wakes every waiter" and clears the waiting list; thread run-states are out
of this model, so resuming-all is the emptying of the list. -/
def resume_all (_w : List Nat) : List Nat := []

/-- Modelled from the spec: `waiting_threads_list::resume_one` (scheduler
lists, not under src/).  The waiting list is kept priority-ordered with
FIFO ties by the link primitive, so resuming one waiter removes the head:
the highest-priority, earliest-linked thread. -/
def resume_one (w : List Nat) : List Nat := w.tail

/-- Modelled from the spec: `scheduler::_link_node` (not under src/)
inserts the wait node into the waiter list ordered by priority, ties
broken FIFO: the node goes before the first strictly-lower-priority
node. -/
def link_waiter (ths : Nat → thread) (t : Nat) : List Nat → List Nat
  | [] => [t]
  | u :: rest =>
      if (ths u).prio_ < (ths t).prio_ then t :: u :: rest
      else u :: link_waiter ths t rest

/-- Function `mutex::_try_lock (thread* crt_thread)` — the kernel-internal
acquisition primitive, translated branch for branch from os-mutex.cpp. -/
def _try_lock (s : state) (t : Nat) : result_t × state :=
  match s.owner_ with
  | Option.none =>
      -- First lock: own it, initialise the counter, count the acquisition.
      let s1 : state :=
        { s with
          owner_ := some t
          count_ := 1
          threads := upd s.threads t
            { s.threads t with
              acquired_mutexes_ := (s.threads t).acquired_mutexes_ + 1 } }
      if s1.protocol_ = protocol.inherit then
        (result_t.ok, { s1 with owner_prio_ := (s1.threads t).prio_ })
      else if s1.protocol_ = protocol.protect then
        if (s1.threads t).prio_ > s1.prio_ceiling_ then
          -- Source returns EINVAL here without undoing the ownership
          -- assignments above.
          (result_t.EINVAL, s1)
        else
          let s2 : state := { s1 with owner_prio_ := (s1.threads t).prio_ }
          if s2.prio_ceiling_ > s2.owner_prio_ then
            let s3 : state := { s2 with boosted_prio_ := s2.prio_ceiling_ }
            (result_t.ok,
              { s3 with threads := (upd s3.threads t
                  { s3.threads t with prio_ := s3.boosted_prio_ }) })
          else
            (result_t.ok, s2)
      else
        (result_t.ok, s1)
  | some o =>
      if o = t then
        -- Relock by the owner.
        if s.type_ = type.recursive then
          if s.count_ ≥ s.max_count_ then (result_t.EAGAIN, s)
          else (result_t.ok, { s with count_ := s.count_ + 1 })
        else if s.type_ = type.errorcheck then (result_t.EDEADLK, s)
        else if s.type_ = type.normal then (result_t.EWOULDBLOCK, s)
        else
          -- `type::_default`: no branch matches, fall through to the
          -- final `return EWOULDBLOCK`.
          (result_t.EWOULDBLOCK, s)
      else
        -- Owned by another thread.
        if s.protocol_ = protocol.inherit then
          let prio := (s.threads t).prio_
          if prio > (s.threads o).prio_ then
            (result_t.EWOULDBLOCK,
              { s with
                boosted_prio_ := prio
                threads := upd s.threads o { s.threads o with prio_ := prio } })
          else (result_t.EWOULDBLOCK, s)
        else (result_t.EWOULDBLOCK, s)

/-- Function `mutex::_init` — note that the source resets `count_`, `consistent_`,
`recoverable_` and resumes all waiters, and touches nothing else. -/
def _init (s : state) : state :=
  { s with
    count_ := 0
    consistent_ := true
    recoverable_ := true
    list_ := resume_all s.list_ }

/-- Function `mutex::reset` — inside a scheduler critical section, `_init` then
`result::ok`. -/
def reset (s : state) : result_t × state :=
  (result_t.ok, _init s)

/-- Function `mutex::unlock` by thread `t` (the calling thread). -/
def unlock (s : state) (t : Nat) : result_t × state :=
  if s.owner_ = some t then
    if s.type_ = type.recursive ∧ s.count_ > 1 then
      (result_t.ok, { s with count_ := s.count_ - 1 })
    else
      let sa : state :=
        if s.boosted_prio_ ≠ priority_none then
          { s with
            threads := upd s.threads t { s.threads t with prio_ := s.owner_prio_ }
            boosted_prio_ := priority_none }
        else s
      let sb : state := { sa with list_ := resume_one sa.list_ }
      let sc : state :=
        { sb with threads := (upd sb.threads t
            { sb.threads t with
              acquired_mutexes_ := (sb.threads t).acquired_mutexes_ - 1 }) }
      (result_t.ok, { sc with owner_ := Option.none, count_ := 0 })
  else
    if s.type_ = type.errorcheck ∨ s.type_ = type.recursive
        ∨ s.robustness_ = robustness.robust then
      (result_t.EPERM, s)
    else
      -- Normal non-robust mutexes unlocked by a non-owner: undefined per
      -- POSIX; the source returns ENOTRECOVERABLE as a diagnostic.
      (result_t.ENOTRECOVERABLE, s)

/-- Function `mutex::try_lock` (public): the ISR-context assertion aside, it is the
non-recoverable check followed by `_try_lock` inside a critical section. -/
def try_lock (s : state) (t : Nat) : result_t × state :=
  if s.recoverable_ = false then (result_t.ENOTRECOVERABLE, s)
  else _try_lock s t

/-- The immediate (non-suspending) path of `mutex::lock`: the
non-recoverable check, then the first `_try_lock`; `none` means the call
would proceed to the blocking loop. -/
def lock_immediate (s : state) (t : Nat) : Option (result_t × state) :=
  if s.recoverable_ = false then some (result_t.ENOTRECOVERABLE, s)
  else
    let r := (_try_lock s t).1
    if r ≠ result_t.EWOULDBLOCK then some (r, (_try_lock s t).2) else none

/-- Setter `mutex::prio_ceiling (prio, old)`: plain `lock ()` (the
TODO in the source notes that it should not, but does, adhere to the priority
protocol), save the old ceiling through the out-parameter, store the new
one, `unlock ()`, return ok.  `none` means the `lock` call would block,
which is outside this immediate-path model.  The third component is the
value written through `old_prio_ceiling` (when provided). -/
def prio_ceiling_set (s : state) (t : Nat) (prio_ceiling : Nat) :
    Option (result_t × state × Option Nat) :=
  match lock_immediate s t with
  | Option.none => Option.none
  | some (r, s1) =>
      if r ≠ result_t.ok then some (r, s1, Option.none)
      else
        let old := s1.prio_ceiling_
        let s2 : state := { s1 with prio_ceiling_ := prio_ceiling }
        some (result_t.ok, (unlock s2 t).2, some old)

/-- Constructor `mutex::mutex (name, attr)` over a given thread map.  The attribute
capture and `max_count_` line are from the source constructor; the
assertion `robustness_ != robustness::robust` (ENOTSUP) makes the result
an `Option`.  Modelled from the spec: the default member initializers of
the class (os-mutex.h is not under src/) — owner none, empty waiter list,
boosted priority none — per "construction initializes state (owner=none,
count=0, consistent=true, recoverable=true, no waiters)". -/
def construct (threads : Nat → thread) (attr : attributes) : Option state :=
  if attr.mx_robustness = robustness.robust then Option.none
  else
    some (_init
      { threads := threads
        owner_ := Option.none
        count_ := 0
        list_ := []
        owner_prio_ := 0
        boosted_prio_ := priority_none
        consistent_ := true
        recoverable_ := true
        type_ := attr.mx_type
        protocol_ := attr.mx_protocol
        robustness_ := attr.mx_robustness
        max_count_ :=
          if attr.mx_type = type.recursive then attr.mx_max_count else 1
        prio_ceiling_ := attr.mx_priority_ceiling })

/-- One environment event of the `timed_lock` wait loop: what the rest of
the system does to the state while the caller is suspended in
`reschedule ()` (`step`), and the value `clock_->steady_now ()` reads when
the caller resumes (`now`). -/
structure wakeup where
  step : state → state
  now : Nat

/-- The state the resumed caller observes in one `timed_lock` iteration:
its node was linked before `reschedule ()`, the environment acted, and the
caller unlinks its node (idempotently) on resume. -/
def wake_state (t : Nat) (w : wakeup) (s : state) : state :=
  let linked : state := { s with list_ := link_waiter s.threads t s.list_ }
  let after := w.step linked
  { after with list_ := after.list_.erase t }

/-- The priority re-evaluation `timed_lock` performs on a failing exit
(EINTR or ETIMEDOUT): when a boost is active, scan the remaining waiters
for their maximum priority; only when that maximum is not `none` does the
source update `boosted_prio_` and the priority of the owner.  (When no waiter
remains the source leaves both untouched.) -/
def timed_lock_fail_adjust (s : state) : state :=
  if s.boosted_prio_ ≠ priority_none then
    let max_prio := s.list_.foldl
      (fun m th => if (s.threads th).prio_ > m then (s.threads th).prio_ else m)
      priority_none
    if max_prio ≠ priority_none then
      let s1 : state := { s with boosted_prio_ := max_prio }
      match s1.owner_ with
      | some o =>
          { s1 with threads := (upd s1.threads o
              { s1.threads o with prio_ := s1.boosted_prio_ }) }
      | Option.none => s1
    else s
  else s

/-- Wait loop (the `for (;;)`) of `mutex::timed_lock`, driven by the list of
environment events: each iteration retries `_try_lock`, links the node,
suspends (the environment acts), unlinks, then checks interruption first,
the deadline second, and otherwise loops.  `none` means the caller is
still suspended when the event trace ends. -/
def timed_lock_loop (t deadline : Nat) :
    List wakeup → state → Option (result_t × state)
  | [], s =>
      let r := (_try_lock s t).1
      if r ≠ result_t.EWOULDBLOCK then some (r, (_try_lock s t).2)
      else Option.none
  | w :: rest, s =>
      let r := (_try_lock s t).1
      if r ≠ result_t.EWOULDBLOCK then some (r, (_try_lock s t).2)
      else
        let su := wake_state t w (_try_lock s t).2
        if (su.threads t).interrupted_ = true then
          some (result_t.EINTR, timed_lock_fail_adjust su)
        else if w.now ≥ deadline then
          some (result_t.ETIMEDOUT, timed_lock_fail_adjust su)
        else
          timed_lock_loop t deadline rest su

/-- Function `mutex::timed_lock (timeout)`: the non-recoverable check, the
pre-loop `_try_lock` fast path, and only then the deadline computation
`timeout_timestamp = steady_now () + timeout` (`now0` is that
`steady_now ()` reading) followed by the wait loop. -/
def timed_lock (s : state) (t : Nat) (timeout now0 : Nat)
    (env : List wakeup) : Option (result_t × state) :=
  if s.recoverable_ = false then some (result_t.ENOTRECOVERABLE, s)
  else
    let r := (_try_lock s t).1
    if r ≠ result_t.EWOULDBLOCK then some (r, (_try_lock s t).2)
    else timed_lock_loop t (now0 + timeout) env (_try_lock s t).2

end mutex

/-! Helper lemmas -/

/-- The primitive `_try_lock` never reports a timeout itself; `ETIMEDOUT` can only come
from the deadline check of the `timed_lock` wait loop. -/
theorem try_lock_not_timeout (s : mutex.state) (t : Nat) :
    (mutex._try_lock s t).1 ≠ result_t.ETIMEDOUT := by
  cases ho : s.owner_ <;> simp only [mutex._try_lock, ho] <;>
    (repeat' split) <;> simp

/-- Structural characterisation of the `timed_lock` wait loop: a
`ETIMEDOUT` outcome arises only at an iteration whose acquisition retry
returned `EWOULDBLOCK`, whose resumed thread was not interrupted, and
whose clock reading reached the deadline; the final state is the
priority-re-evaluated wakeup state. -/
theorem timed_lock_loop_timeout (t deadline : Nat) :
    ∀ (env : List mutex.wakeup) (s s' : mutex.state),
      mutex.timed_lock_loop t deadline env s = some (result_t.ETIMEDOUT, s') →
      ∃ s0 w, w ∈ env ∧ (mutex._try_lock s0 t).1 = result_t.EWOULDBLOCK ∧
        ((mutex.wake_state t w (mutex._try_lock s0 t).2).threads t).interrupted_ = false ∧
        deadline ≤ w.now ∧
        s' = mutex.timed_lock_fail_adjust
          (mutex.wake_state t w (mutex._try_lock s0 t).2) := by
  intro env
  induction env with
  | nil =>
      intro s s' h
      simp only [mutex.timed_lock_loop] at h
      split at h
      · simp only [Option.some.injEq, Prod.mk.injEq] at h
        exact absurd h.1 (try_lock_not_timeout s t)
      · exact absurd h (by simp)
  | cons w rest ih =>
      intro s s' h
      simp only [mutex.timed_lock_loop] at h
      split at h
      · simp only [Option.some.injEq, Prod.mk.injEq] at h
        exact absurd h.1 (try_lock_not_timeout s t)
      · rename_i hwb
        split at h
        · simp at h
        · split at h
          · rename_i hint hnow
            simp only [Option.some.injEq, Prod.mk.injEq, true_and] at h
            refine ⟨s, w, List.mem_cons_self w rest, not_not.mp hwb,
              ?_, hnow, h.symm⟩
            simpa using hint
          · obtain ⟨s0, w', hm, h1, h2, h3, h4⟩ := ih _ _ h
            exact ⟨s0, w', List.mem_cons_of_mem w hm, h1, h2, h3, h4⟩

/-! Claim C1 -/

/-- An unowned priority-protect mutex with ceiling 20; thread 1 runs at
priority 30 (strictly above the ceiling). -/
def c1_state : mutex.state :=
  { threads := fun i => if i = 1 then ⟨30, false, 0⟩ else ⟨10, false, 0⟩
    owner_ := Option.none
    count_ := 0
    list_ := []
    owner_prio_ := 0
    boosted_prio_ := priority_none
    consistent_ := true
    recoverable_ := true
    type_ := mutex.type.normal
    protocol_ := mutex.protocol.protect
    robustness_ := mutex.robustness.stalled
    max_count_ := 1
    prio_ceiling_ := 20 }

/-- C1: an over-ceiling `protect` acquisition does return `EINVAL`, but the
source does not back it out: the failed caller is left as owner with
count 1 and its acquired-mutex counter incremented, contradicting the
claimed unchanged state. -/
theorem mutex_protect_over_ceiling_not_backed_out :
    (mutex._try_lock c1_state 1).1 = result_t.EINVAL ∧
    (mutex._try_lock c1_state 1).2.owner_ = some 1 ∧
    (mutex._try_lock c1_state 1).2.count_ = 1 ∧
    ((mutex._try_lock c1_state 1).2.threads 1).acquired_mutexes_ = 1 := by
  decide

/-! Claim C2 -/

/-- A fresh normal mutex about to be locked by thread 0. -/
def c2_base : mutex.state :=
  { threads := fun _ => ⟨10, false, 0⟩
    owner_ := Option.none
    count_ := 0
    list_ := []
    owner_prio_ := 0
    boosted_prio_ := priority_none
    consistent_ := true
    recoverable_ := true
    type_ := mutex.type.normal
    protocol_ := mutex.protocol.none
    robustness_ := mutex.robustness.stalled
    max_count_ := 1
    prio_ceiling_ := 0 }

/-- The reachable state in which thread 0 owns `c2_base`. -/
def c2_owned : mutex.state := (mutex._try_lock c2_base 0).2

/-- C2: `reset` on a reachable owned mutex returns ok and re-initialises
count, consistent, recoverable and the waiter list, but `_init` never
clears `owner_`: the mutex is NOT in the freshly-constructed state
(owner is still thread 0 rather than none). -/
theorem mutex_reset_leaves_owner_set :
    c2_owned.owner_ = some 0 ∧
    (mutex.reset c2_owned).1 = result_t.ok ∧
    (mutex.reset c2_owned).2.owner_ = some 0 ∧
    (mutex.reset c2_owned).2.count_ = 0 ∧
    (mutex.reset c2_owned).2.consistent_ = true ∧
    (mutex.reset c2_owned).2.recoverable_ = true ∧
    (mutex.reset c2_owned).2.list_ = [] := by
  decide

/-! Claim C3 -/

/-- An inherit-protocol mutex held by thread 0 (base priority 10, already
recorded in `owner_prio_`); thread 1 runs at priority 30. -/
def c3_state : mutex.state :=
  { threads := fun i => if i = 0 then ⟨10, false, 1⟩ else ⟨30, false, 0⟩
    owner_ := some 0
    count_ := 1
    list_ := []
    owner_prio_ := 10
    boosted_prio_ := priority_none
    consistent_ := true
    recoverable_ := true
    type_ := mutex.type.normal
    protocol_ := mutex.protocol.inherit
    robustness_ := mutex.robustness.stalled
    max_count_ := 1
    prio_ceiling_ := 0 }

/-- The wait-loop environment for C3: while thread 1 is suspended nothing
else touches the mutex, and on resume the clock reads 100, past the
deadline 10 + 50 = 60. -/
def c3_env : List mutex.wakeup := [⟨fun s => s, 100⟩]

/-- C3: thread 1 (priority 30) boosts owner thread 0 and then times out as
the last waiter.  The re-evaluation in the source only acts when waiters
remain, so the owner is left at the stale boosted priority 30 with
`boosted_prio_` still 30 — it does not drop back to the saved priority
10 as the claim (and spec scenario 5) requires. -/
theorem mutex_timed_lock_timeout_keeps_stale_boost :
    (mutex.timed_lock c3_state 1 50 10 c3_env).map (fun p => p.1)
        = some result_t.ETIMEDOUT ∧
    (mutex.timed_lock c3_state 1 50 10 c3_env).map (fun p => p.2.list_)
        = some [] ∧
    (mutex.timed_lock c3_state 1 50 10 c3_env).map (fun p => (p.2.threads 0).prio_)
        = some 30 ∧
    (mutex.timed_lock c3_state 1 50 10 c3_env).map (fun p => p.2.boosted_prio_)
        = some 30 ∧
    (mutex.timed_lock c3_state 1 50 10 c3_env).map (fun p => p.2.owner_prio_)
        = some 10 := by
  decide

/-! Claim C4 -/

/-- C4: an acquisition attempt on a mutex already owned by the caller:
`recursive` gives `EAGAIN` at the recursion cap (count = max_count, the
reachable form of the `count_ >= max_count_` test in the source) and otherwise
increments the count; `errorcheck` gives `EDEADLK` and `normal` gives
`EWOULDBLOCK`, both leaving the state unchanged; the public `try_lock`
agrees with `_try_lock` on recoverable mutexes. -/
theorem mutex_try_lock_relock_cases (s : mutex.state) (t : Nat)
    (ho : s.owner_ = some t) (hc : s.count_ ≤ s.max_count_) :
    (s.type_ = mutex.type.recursive →
      (s.count_ = s.max_count_ →
        mutex._try_lock s t = (result_t.EAGAIN, s)) ∧
      (s.count_ ≠ s.max_count_ →
        mutex._try_lock s t = (result_t.ok, { s with count_ := s.count_ + 1 }))) ∧
    (s.type_ = mutex.type.errorcheck →
      mutex._try_lock s t = (result_t.EDEADLK, s)) ∧
    (s.type_ = mutex.type.normal →
      mutex._try_lock s t = (result_t.EWOULDBLOCK, s)) ∧
    (s.recoverable_ = true → mutex.try_lock s t = mutex._try_lock s t) := by
  refine ⟨fun ht => ⟨fun he => ?_, fun hne => ?_⟩, fun ht => ?_, fun ht => ?_,
    fun hr => ?_⟩
  · have hge : s.count_ ≥ s.max_count_ := he.ge
    simp [mutex._try_lock, ho, ht, hge]
  · have hlt : ¬ s.count_ ≥ s.max_count_ := by omega
    simp [mutex._try_lock, ho, ht, hlt]
  · simp [mutex._try_lock, ho, ht]
  · simp [mutex._try_lock, ho, ht]
  · simp [mutex.try_lock, hr]

/-- A caller-owned recursive mutex below its cap (count 1, max 3). -/
def c4_state : mutex.state :=
  { threads := fun _ => ⟨10, false, 1⟩
    owner_ := some 1
    count_ := 1
    list_ := []
    owner_prio_ := 0
    boosted_prio_ := priority_none
    consistent_ := true
    recoverable_ := true
    type_ := mutex.type.recursive
    protocol_ := mutex.protocol.none
    robustness_ := mutex.robustness.stalled
    max_count_ := 3
    prio_ceiling_ := 0 }

/-- Witness for C4 at a concrete relock below the cap. -/
theorem mutex_try_lock_relock_cases_witness :
    mutex._try_lock c4_state 1 = (result_t.ok, { c4_state with count_ := c4_state.count_ + 1 }) :=
  ((mutex_try_lock_relock_cases c4_state 1 (by decide) (by decide)).1
    (by decide)).2 (by decide)

/-! Claim C5 -/

/-- C5: `unlock` called by a thread that is not the owner (including the
unowned case) returns `EPERM` for errorcheck or recursive types and for
robust mutexes, `ENOTRECOVERABLE` otherwise (normal, non-robust), and in
both cases returns the state unchanged. -/
theorem mutex_unlock_not_owner (s : mutex.state) (t : Nat)
    (h : s.owner_ ≠ some t) :
    ((s.type_ = mutex.type.errorcheck ∨ s.type_ = mutex.type.recursive
        ∨ s.robustness_ = mutex.robustness.robust) →
      mutex.unlock s t = (result_t.EPERM, s)) ∧
    (¬ (s.type_ = mutex.type.errorcheck ∨ s.type_ = mutex.type.recursive
        ∨ s.robustness_ = mutex.robustness.robust) →
      mutex.unlock s t = (result_t.ENOTRECOVERABLE, s)) := by
  refine ⟨fun hd => ?_, fun hd => ?_⟩ <;> simp [mutex.unlock, h, hd]

/-- An unowned normal non-robust mutex; thread 1 is not the owner. -/
def c5_state : mutex.state :=
  { threads := fun _ => ⟨10, false, 0⟩
    owner_ := Option.none
    count_ := 0
    list_ := []
    owner_prio_ := 0
    boosted_prio_ := priority_none
    consistent_ := true
    recoverable_ := true
    type_ := mutex.type.normal
    protocol_ := mutex.protocol.none
    robustness_ := mutex.robustness.stalled
    max_count_ := 1
    prio_ceiling_ := 0 }

/-- Witness for C5 on a concrete unowned normal non-robust mutex. -/
theorem mutex_unlock_not_owner_witness :
    mutex.unlock c5_state 1 = (result_t.ENOTRECOVERABLE, c5_state) :=
  (mutex_unlock_not_owner c5_state 1 (by decide)).2 (by decide)

/-! Claim C9 -/

/-- C9: unlocking a recursive mutex owned by the caller with count above 1
only decrements the count and returns ok; the record-update form of the
right-hand side states that every other component (owner, waiters,
priorities, boost, thread map) is unchanged. -/
theorem mutex_unlock_recursive_decrements (s : mutex.state) (t : Nat)
    (ho : s.owner_ = some t) (ht : s.type_ = mutex.type.recursive)
    (hc : 1 < s.count_) :
    mutex.unlock s t = (result_t.ok, { s with count_ := s.count_ - 1 }) := by
  simp [mutex.unlock, ho, ht, hc]

/-- A recursive mutex held three levels deep by thread 1. -/
def c9_state : mutex.state :=
  { threads := fun _ => ⟨10, false, 1⟩
    owner_ := some 1
    count_ := 3
    list_ := [2]
    owner_prio_ := 10
    boosted_prio_ := priority_none
    consistent_ := true
    recoverable_ := true
    type_ := mutex.type.recursive
    protocol_ := mutex.protocol.none
    robustness_ := mutex.robustness.stalled
    max_count_ := 5
    prio_ceiling_ := 0 }

/-- Witness for C9 at a concrete deep-held recursive mutex. -/
theorem mutex_unlock_recursive_decrements_witness :
    mutex.unlock c9_state 1 = (result_t.ok, { c9_state with count_ := c9_state.count_ - 1 }) :=
  mutex_unlock_recursive_decrements c9_state 1 (by decide) (by decide) (by decide)

/-! Claim C6 -/

/-- An unowned protect mutex with ceiling 20; thread 1 runs at priority
30 and asks to replace the ceiling by 25. -/
def c6_state : mutex.state :=
  { threads := fun i => if i = 1 then ⟨30, false, 0⟩ else ⟨10, false, 0⟩
    owner_ := Option.none
    count_ := 0
    list_ := []
    owner_prio_ := 0
    boosted_prio_ := priority_none
    consistent_ := true
    recoverable_ := true
    type_ := mutex.type.normal
    protocol_ := mutex.protocol.protect
    robustness_ := mutex.robustness.stalled
    max_count_ := 1
    prio_ceiling_ := 20 }

/-- C6: the `prio_ceiling` setter acquires through the plain `lock` path,
which does apply the protect protocol: a caller whose priority (30)
exceeds the current ceiling (20) gets `EINVAL` and the ceiling stays 20,
contrary to the claim that the acquisition skips the protect boost and
cannot fail that way.  (By the C1 defect the failed plain lock has also
left the caller recorded as owner.) -/
theorem mutex_prio_ceiling_set_uses_protect_protocol :
    (mutex.prio_ceiling_set c6_state 1 25).map
        (fun p => (p.1, p.2.1.prio_ceiling_, p.2.2))
      = some (result_t.EINVAL, 20, Option.none) ∧
    (mutex.prio_ceiling_set c6_state 1 25).map (fun p => p.2.1.owner_)
      = some (some 1) := by
  decide

/-! Claim C8 -/

/-- C8: on an unowned, uncontended, recoverable mutex (caller at or below
the ceiling when the protocol is protect), `lock` succeeds immediately and
`unlock` then succeeds and restores everything the claim enumerates:
owner none, count 0, boost cleared, empty waiter list, and the priority
and acquired-mutex counter of the caller back at their pre-lock values. -/
theorem mutex_lock_unlock_roundtrip (s : mutex.state) (t : Nat)
    (ho : s.owner_ = Option.none) (hw : s.list_ = [])
    (hb : s.boosted_prio_ = priority_none) (hr : s.recoverable_ = true)
    (hp : s.protocol_ = mutex.protocol.protect →
      (s.threads t).prio_ ≤ s.prio_ceiling_) :
    mutex.lock_immediate s t = some (result_t.ok, (mutex._try_lock s t).2) ∧
    (mutex.unlock (mutex._try_lock s t).2 t).1 = result_t.ok ∧
    (mutex.unlock (mutex._try_lock s t).2 t).2.owner_ = Option.none ∧
    (mutex.unlock (mutex._try_lock s t).2 t).2.count_ = 0 ∧
    (mutex.unlock (mutex._try_lock s t).2 t).2.boosted_prio_ = priority_none ∧
    (mutex.unlock (mutex._try_lock s t).2 t).2.list_ = [] ∧
    ((mutex.unlock (mutex._try_lock s t).2 t).2.threads t).prio_
      = (s.threads t).prio_ ∧
    ((mutex.unlock (mutex._try_lock s t).2 t).2.threads t).acquired_mutexes_
      = (s.threads t).acquired_mutexes_ := by
  rcases hpr : s.protocol_ with _ | _ | _
  · constructor
    · simp [mutex.lock_immediate, mutex._try_lock, ho, hr, hpr]
    · simp [mutex._try_lock, mutex.unlock, mutex.resume_one, ho, hw, hb, hr,
        hpr, upd_self, priority_none]
  · constructor
    · simp [mutex.lock_immediate, mutex._try_lock, ho, hr, hpr]
    · simp [mutex._try_lock, mutex.unlock, mutex.resume_one, ho, hw, hb, hr,
        hpr, upd_self, priority_none]
  · have hle := hp hpr
    have hng : ¬ ((s.threads t).prio_ > s.prio_ceiling_) := by omega
    by_cases hboost : s.prio_ceiling_ > (s.threads t).prio_
    · have hcz : s.prio_ceiling_ ≠ 0 := by omega
      constructor
      · simp [mutex.lock_immediate, mutex._try_lock, ho, hr, hpr, upd_self,
          hng, hboost]
      · simp [mutex._try_lock, mutex.unlock, mutex.resume_one, ho, hw, hb, hr,
          hpr, upd_self, priority_none, hng, hboost, hcz]
    · constructor
      · simp [mutex.lock_immediate, mutex._try_lock, ho, hr, hpr, upd_self,
          hng, hboost]
      · simp [mutex._try_lock, mutex.unlock, mutex.resume_one, ho, hw, hb, hr,
          hpr, upd_self, priority_none, hng, hboost]

/-- An unowned protect mutex (ceiling 20, caller priority 10) used to
exercise the boost-and-restore round trip. -/
def c8_state : mutex.state :=
  { threads := fun _ => ⟨10, false, 2⟩
    owner_ := Option.none
    count_ := 0
    list_ := []
    owner_prio_ := 0
    boosted_prio_ := priority_none
    consistent_ := true
    recoverable_ := true
    type_ := mutex.type.normal
    protocol_ := mutex.protocol.protect
    robustness_ := mutex.robustness.stalled
    max_count_ := 1
    prio_ceiling_ := 20 }

/-- Witness for C8 on a concrete protect mutex whose lock boosts to the
ceiling and whose unlock restores priority 10 and the counter 2. -/
theorem mutex_lock_unlock_roundtrip_witness :
    mutex.lock_immediate c8_state 1 = some (result_t.ok, (mutex._try_lock c8_state 1).2) ∧
    (mutex.unlock (mutex._try_lock c8_state 1).2 1).1 = result_t.ok ∧
    (mutex.unlock (mutex._try_lock c8_state 1).2 1).2.owner_ = Option.none ∧
    (mutex.unlock (mutex._try_lock c8_state 1).2 1).2.count_ = 0 ∧
    (mutex.unlock (mutex._try_lock c8_state 1).2 1).2.boosted_prio_ = priority_none ∧
    (mutex.unlock (mutex._try_lock c8_state 1).2 1).2.list_ = [] ∧
    ((mutex.unlock (mutex._try_lock c8_state 1).2 1).2.threads 1).prio_
      = (c8_state.threads 1).prio_ ∧
    ((mutex.unlock (mutex._try_lock c8_state 1).2 1).2.threads 1).acquired_mutexes_
      = (c8_state.threads 1).acquired_mutexes_ :=
  mutex_lock_unlock_roundtrip c8_state 1 (by decide) (by decide) (by decide)
    (by decide) (fun _ => by decide)

/-! Claim C10 -/

/-- C10: the constructor stores the `type` attribute verbatim (no remap of
`_default`) and forces `max_count_` to 1 for non-recursive types; on a
relock by the owner of a `_default` mutex, `_try_lock` matches none of the
recursive/errorcheck/normal branches and falls through to `EWOULDBLOCK`
with the state unchanged — observably the `normal` relock answer. -/
theorem mutex_default_type_verbatim_relock_wouldblock
    (threads : Nat → thread) (attr : mutex.attributes)
    (s2 : mutex.state) (t : Nat)
    (hrb : attr.mx_robustness ≠ mutex.robustness.robust)
    (hd : attr.mx_type = mutex.type._default)
    (h2 : s2.type_ = mutex.type._default) (h3 : s2.owner_ = some t) :
    (mutex.construct threads attr).map (fun s => s.type_)
      = some attr.mx_type ∧
    (mutex.construct threads attr).map (fun s => s.max_count_) = some 1 ∧
    mutex._try_lock s2 t = (result_t.EWOULDBLOCK, s2) := by
  refine ⟨?_, ?_, ?_⟩
  · simp [mutex.construct, mutex._init, hrb]
  · simp [mutex.construct, mutex._init, hrb, hd]
  · simp [mutex._try_lock, h2, h3]

/-- Attributes selecting `type::_default` with a (dead) recursion cap. -/
def c10_attr : mutex.attributes :=
  { mx_type := mutex.type._default
    mx_protocol := mutex.protocol.none
    mx_robustness := mutex.robustness.stalled
    mx_max_count := 7
    mx_priority_ceiling := 0 }

/-- Mutex of type `_default` owned by thread 1, about to be relocked. -/
def c10_state : mutex.state :=
  { threads := fun _ => ⟨10, false, 1⟩
    owner_ := some 1
    count_ := 1
    list_ := []
    owner_prio_ := 0
    boosted_prio_ := priority_none
    consistent_ := true
    recoverable_ := true
    type_ := mutex.type._default
    protocol_ := mutex.protocol.none
    robustness_ := mutex.robustness.stalled
    max_count_ := 1
    prio_ceiling_ := 0 }

/-- Witness for C10 at concrete attributes and a concrete relock. -/
theorem mutex_default_type_verbatim_relock_wouldblock_witness :
    (mutex.construct c10_state.threads c10_attr).map (fun s => s.type_)
      = some c10_attr.mx_type ∧
    (mutex.construct c10_state.threads c10_attr).map (fun s => s.max_count_)
      = some 1 ∧
    mutex._try_lock c10_state 1 = (result_t.EWOULDBLOCK, c10_state) :=
  mutex_default_type_verbatim_relock_wouldblock c10_state.threads c10_attr
    c10_state 1 (by decide) (by decide) (by decide) (by decide)

/-! Claim C7 -/

/-- C7: `timed_lock` never reports a timeout when acquisition succeeds
immediately — the `_try_lock` fast path runs before any deadline
comparison, for every timeout value including zero or already expired —
and `ETIMEDOUT` arises only at a wait-loop iteration whose acquisition
retry returned `EWOULDBLOCK`, whose resumed thread was not interrupted
(the interruption check runs first), and whose clock reading had reached
the deadline. -/
theorem mutex_timed_lock_fast_path_and_timeout_discipline :
    (∀ (s : mutex.state) (t timeout now0 : Nat) (env : List mutex.wakeup),
      s.recoverable_ = true →
      (mutex._try_lock s t).1 ≠ result_t.EWOULDBLOCK →
      mutex.timed_lock s t timeout now0 env
        = some ((mutex._try_lock s t).1, (mutex._try_lock s t).2)) ∧
    (∀ (s : mutex.state) (t timeout now0 : Nat) (env : List mutex.wakeup)
        (s' : mutex.state),
      mutex.timed_lock s t timeout now0 env = some (result_t.ETIMEDOUT, s') →
      ∃ s0 w, w ∈ env ∧ (mutex._try_lock s0 t).1 = result_t.EWOULDBLOCK ∧
        ((mutex.wake_state t w (mutex._try_lock s0 t).2).threads t).interrupted_
          = false ∧
        now0 + timeout ≤ w.now ∧
        s' = mutex.timed_lock_fail_adjust
          (mutex.wake_state t w (mutex._try_lock s0 t).2)) := by
  constructor
  · intro s t timeout now0 env hr hfast
    simp [mutex.timed_lock, hr, hfast]
  · intro s t timeout now0 env s' h
    simp only [mutex.timed_lock] at h
    split at h
    · simp only [Option.some.injEq, Prod.mk.injEq] at h
      exact absurd h.1.symm (by simp)
    · split at h
      · simp only [Option.some.injEq, Prod.mk.injEq] at h
        exact absurd h.1 (try_lock_not_timeout s t)
      · exact timed_lock_loop_timeout t (now0 + timeout) env _ s' h

/-- An unowned, immediately acquirable mutex for the C7 fast-path
witness. -/
def c7_state : mutex.state :=
  { threads := fun _ => ⟨10, false, 0⟩
    owner_ := Option.none
    count_ := 0
    list_ := []
    owner_prio_ := 0
    boosted_prio_ := priority_none
    consistent_ := true
    recoverable_ := true
    type_ := mutex.type.normal
    protocol_ := mutex.protocol.none
    robustness_ := mutex.robustness.stalled
    max_count_ := 1
    prio_ceiling_ := 0 }

/-- Witness for C7: with a zero (already expired) timeout on an
acquirable mutex, `timed_lock` returns the immediate `_try_lock` result,
not `ETIMEDOUT`. -/
theorem mutex_timed_lock_fast_path_witness :
    mutex.timed_lock c7_state 1 0 5 []
      = some ((mutex._try_lock c7_state 1).1, (mutex._try_lock c7_state 1).2) :=
  mutex_timed_lock_fast_path_and_timeout_discipline.1 c7_state 1 0 5 []
    (by decide) (by decide)
